import Mathlib

/-!
Verification of the input-prompt validation core of the Python-Compendium
console library. This file shallowly embeds src/console/inputs.py (the
class-based prompt core shared by string, numeric, boolean, selection and
list prompts) and the list_input function of src/console/input.py. Pure
Lean functions mirror the Python methods; the operator is modelled as a
finite script of input lines, and every error message written to the
screen is collected in order. Python floats are modelled as exact
rationals (all inputs exercised are small decimal literals), and display
styling (ANSI colors, prompt rendering) is omitted because it does not
affect control flow or results.
-/

set_option linter.unusedVariables false

namespace Compendium

/-- Python dict.get with a default, on an association list; Python dicts
have unique keys so the first binding wins. -/
def dictGet (d : List (String × String)) (k : String) (dflt : String) : String :=
  match d.find? (fun p => p.1 == k) with
  | some p => p.2
  | none => dflt

/-- Replace every occurrence of a nonempty pattern in a character list,
scanning left to right without rescanning replacements; the fuel argument
(one unit per character examined) keeps the recursion structural so that
it evaluates inside the kernel. -/
def replaceAux (pat repl : List Char) : Nat → List Char → List Char
  | _, [] => []
  | 0, cs => cs
  | fuel + 1, c :: cs =>
    if pat.isPrefixOf (c :: cs) then
      repl ++ replaceAux pat repl fuel ((c :: cs).drop pat.length)
    else
      c :: replaceAux pat repl fuel cs

/-- Replacement of every occurrence of a pattern inside a string, the
behavior of Python str.replace for the nonempty patterns format uses. -/
def pyReplace (s pat repl : String) : String :=
  ⟨replaceAux pat.data repl.data s.data.length s.data⟩

/-- Python str.format restricted to simple named placeholders written as
\x7bname\x7d, which is all the error-message templates of the source use. -/
def pyFormat (template : String) (kwargs : List (String × String)) : String :=
  kwargs.foldl (fun s kv => pyReplace s ("\x7b" ++ kv.1 ++ "\x7d") kv.2) template

/-- Python str.lower on the ASCII strings the prompts compare, written
over the character list so that it evaluates inside the kernel. -/
def pyLower (s : String) : String :=
  ⟨s.data.map Char.toLower⟩

/-- Python str.strip with the default whitespace set, written over the
character list so that it evaluates inside the kernel. -/
def pyStrip (s : String) : String :=
  ⟨((s.data.dropWhile Char.isWhitespace).reverse.dropWhile Char.isWhitespace).reverse⟩

/-- Python str() applied to an optional integer option value (None prints
as the word None). -/
def pyStrOptNat : Option Nat → String
  | some n => toString n
  | none => "None"

/-- Python str() applied to an optional float option value, rendered as a
rational. No claim observes this text: the only messages the claims
inspect either have no placeholder or are remapped to a constant text. -/
def pyStrOptRat : Option Rat → String
  | some q => toString q
  | none => "None"

/-- Parse a nonempty run of ASCII digits into a natural number. -/
def digitsToNat : List Char → Option Nat
  | [] => none
  | cs => cs.foldlM (fun acc c => if c.isDigit then some (acc * 10 + (c.toNat - 48)) else none) 0

/-- Models the Python float() builtin restricted to optionally signed plain
decimal literals: digits with at most one decimal point, where at least one
side of the point is nonempty. none models float() raising ValueError.
Exponents, infinities and nan are outside the inputs any claim exercises,
and float() applied to such plain literals never raises OverflowError. -/
def floatParse (s : String) : Option Rat :=
  let go : List Char → Option Rat := fun cs =>
    let intPart := cs.takeWhile (fun c => c ≠ '.')
    match cs.dropWhile (fun c => c ≠ '.') with
    | [] => (digitsToNat intPart).map (fun n => (n : Rat))
    | _ :: frac =>
        if frac.contains '.' then none
        else if intPart.isEmpty ∧ frac.isEmpty then none
        else
          match (if intPart.isEmpty then some 0 else digitsToNat intPart),
                (if frac.isEmpty then some 0 else digitsToNat frac) with
          | some i, some f =>
              some (mkRat ((i : Int) * ((10 : Nat) ^ frac.length : Nat) + (f : Int))
                ((10 : Nat) ^ frac.length))
          | _, _ => none
  match s.data with
  | '-' :: rest => (go rest).map (fun q => -q)
  | '+' :: rest => go rest
  | cs => go cs

/-- Models the Python int() builtin restricted to optionally signed digit
strings; none models int() raising ValueError, which it does on any string
holding a decimal point, such as the text 2.0. -/
def intParse (s : String) : Option Int :=
  match s.data with
  | '-' :: rest => (digitsToNat rest).map (fun n => -(n : Int))
  | '+' :: rest => (digitsToNat rest).map (fun n => (n : Int))
  | cs => (digitsToNat cs).map (fun n => (n : Int))

/-- Python percent-one applied to a float: the fractional part q minus
floor of q, written as one fraction over the denominator of q so that it
evaluates inside the kernel; it is nonzero exactly when the value is not
whole. -/
def fracPart (q : Rat) : Rat := mkRat (q.num - q.floor * (q.den : Int)) q.den

/-- Outcome of in_range: the value fell below the minimum or rose above
the maximum. -/
inductive RangeErr
  | lt
  | gt
deriving DecidableEq

/-- in_range from src/console/inputs.py: none when the value lies inside
the inclusive range, checking the minimum before the maximum; an absent
bound is never violated. -/
def in_range {α : Type} [LinearOrder α] (in_num : α) (minimum maximum : Option α) :
    Option RangeErr :=
  if (minimum.map (fun m => decide (in_num < m))).getD false then some RangeErr.lt
  else if (maximum.map (fun M => decide (M < in_num))).getD false then some RangeErr.gt
  else none

/-- STRING_DEFAULT_ERRORS from src/console/inputs.py. -/
def STRING_DEFAULT_ERRORS : List (String × String) :=
  [("too-long", "Must be at most \x7bmax\x7d characters"),
   ("too-short", "Must be at least \x7bmin\x7d characters"),
   ("empty", "Value cannot be empty"),
   ("not-equal", "Must have \x7bamount\x7d characters"),
   ("not-between", "Must be at least \x7bmin\x7d and at most \x7bmax\x7d characters")]

/-- NUMERIC_DEFAULT_ERRORS from src/console/inputs.py: the numeric entries
followed by the string entries merged in by dict update (the key sets are
disjoint, so updating is appending). -/
def NUMERIC_DEFAULT_ERRORS : List (String × String) :=
  [("overflow", "Number is too big"),
   ("too-big", "Must be less than or equal to \x7bmax\x7d"),
   ("too-small", "Must be greater than or equal to \x7bmin\x7d"),
   ("not-numeric", "Must be numeric"),
   ("not-whole", "Must be a whole number")] ++ STRING_DEFAULT_ERRORS

/-- SELECTION_DEFAULT_ERRORS from src/console/inputs.py. -/
def SELECTION_DEFAULT_ERRORS : List (String × String) :=
  [("invalid", "Invalid choice"),
   ("empty", "Please select an option")]

/-- LIST_DEFAULT_ERRORS from src/console/inputs.py. -/
def LIST_DEFAULT_ERRORS : List (String × String) :=
  [("not-enough", "Not enough items")]

/-- LIST_INPUT_ERROR_MESSAGES from src/console/input.py. -/
def LIST_INPUT_ERROR_MESSAGES : List (String × String) :=
  [("invalid", "Invalid value"),
   ("duplicate", "Value already entered")]

/-- ValidationError from src/console/inputs.py: carries the user-visible
message already resolved against the error table of the options. -/
structure ValidationError where
  message : String
deriving DecidableEq

/-- BaseInput invalidate: resolve a message code through the error table,
falling back to the Unknown Error text, and substitute the keyword
arguments into the template. -/
def invalidate (errors : List (String × String)) (message_code : String)
    (kwargs : List (String × String)) : ValidationError :=
  ⟨pyFormat (dictGet errors message_code "Unknown Error") kwargs⟩

/-- InputResult from src/console/inputs.py. -/
inductive InputResult
  | CONTINUE
  | SUCCESS
  | CANCEL
  | ERROR
deriving DecidableEq

/-- Result of one pass of the BaseInput main loop on one raw line:
CONTINUE carrying the error text written to the screen, SUCCESS carrying
the sanitized value, CANCEL, ERROR, or crash, which models an exception
other than ValidationError escaping the loop uncaught. -/
inductive Step (α : Type)
  | cont (shown : String)
  | success (v : α)
  | cancel
  | error
  | crash
deriving DecidableEq

/-- BaseInputOptions from src/console/inputs.py. Styles are omitted
(display only). The additional validation hook is modelled by the message
it would invalidate with, none meaning the hook passes; the default hook
passes every line. -/
structure BaseInputOptions where
  errors : List (String × String) := []
  suffix : String := ": "
  recurring : Bool := true
  cancel_codes : List String := ["!", "~"]
  additional_validation : String → Option String := fun _ => none

/-- StringInputOptions from src/console/inputs.py; the dataclass defaults
the minimum length to 1 and leaves the maximum unbounded. -/
structure StringInputOptions extends BaseInputOptions where
  minimum_length : Option Nat := some 1
  maximum_length : Option Nat := none

/-- The default StringInputOptions value, whose error table is the string
default table. -/
def StringInputOptions.default : StringInputOptions :=
  { errors := STRING_DEFAULT_ERRORS }

/-- NumericInputOptions from src/console/inputs.py. -/
structure NumericInputOptions extends StringInputOptions where
  minimum : Option Rat := none
  maximum : Option Rat := none
  allow_floats : Bool := true

/-- The default NumericInputOptions value, whose error table is the
numeric default table. -/
def NumericInputOptions.default : NumericInputOptions :=
  { errors := NUMERIC_DEFAULT_ERRORS }

/-- default_list_validation from src/console/inputs.py: invalidates an
empty line with the message Please enter a value. -/
def default_list_validation (raw_str : String) : Option String :=
  if raw_str.length = 0 then some "Please enter a value" else none

/-- ListInputOptions from src/console/inputs.py. The item validation
function is modelled by the message it would invalidate with. -/
structure ListInputOptions extends BaseInputOptions where
  minimum_amount : Nat := 1
  maximum_amount : Option Nat := none
  validation_function : String → Option String := default_list_validation
  item_format_string : String := "\x7bcurrent\x7d/\x7bmaximum\x7d"
  stop_codes : List String := ["stop", "done"]

/-- The default ListInputOptions value, whose error table is the list
default table. -/
def ListInputOptions.default : ListInputOptions :=
  { errors := LIST_DEFAULT_ERRORS }

/-- SelectionInputOptions from src/console/inputs.py; the item formatter
only affects display and is omitted. -/
structure SelectionInputOptions extends BaseInputOptions

/-- The default SelectionInputOptions value, whose error table is the
selection default table. -/
def SelectionInputOptions.default : SelectionInputOptions :=
  { errors := SELECTION_DEFAULT_ERRORS }

/-- BaseInput main loop body (one prompt/read cycle) applied to one raw
line: cancel codes are checked before any validation; a ValidationError
from the validator or from the additional validation hook leads to
CONTINUE with the resolved message shown when recurring is set, and to
ERROR with nothing shown otherwise; on success the line is sanitized. A
sanitizer that raises an exception other than ValidationError (none in
this model) escapes the loop uncaught, modelled as crash. -/
def BaseInput.main_loop {α : Type} (o : BaseInputOptions)
    (validate : String → Except ValidationError Unit)
    (sanitize : String → Option α) (raw_input : String) : Step α :=
  if o.cancel_codes.contains raw_input then Step.cancel
  else
    match validate raw_input with
    | Except.error err =>
        if o.recurring then Step.cont err.message else Step.error
    | Except.ok _ =>
        match o.additional_validation raw_input with
        | some msg => if o.recurring then Step.cont msg else Step.error
        | none =>
            match sanitize raw_input with
            | some v => Step.success v
            | none => Step.crash

/-- Result of a full prompt invocation run against a finite script of
input lines: the terminal code with the returned value, the number of
prompt/read cycles performed, and the error messages written, in order.
crashed models an uncaught exception; starved models a script that ends
while the loop still wants another line. -/
inductive RunResult (α : Type)
  | finished (code : InputResult) (value : Option α) (reads : Nat) (errors_shown : List String)
  | crashed
  | starved
deriving DecidableEq

/-- BaseInput invoke: repeat the main loop while it yields CONTINUE,
consuming one scripted line per cycle. -/
def BaseInput.invoke {α : Type} (o : BaseInputOptions)
    (validate : String → Except ValidationError Unit)
    (sanitize : String → Option α) : List String → RunResult α
  | [] => RunResult.starved
  | line :: rest =>
    match BaseInput.main_loop o validate sanitize line with
    | Step.success v => RunResult.finished InputResult.SUCCESS (some v) 1 []
    | Step.cancel => RunResult.finished InputResult.CANCEL none 1 []
    | Step.error => RunResult.finished InputResult.ERROR none 1 []
    | Step.crash => RunResult.crashed
    | Step.cont msg =>
        match BaseInput.invoke o validate sanitize rest with
        | RunResult.finished c v r es => RunResult.finished c v (r + 1) (msg :: es)
        | RunResult.crashed => RunResult.crashed
        | RunResult.starved => RunResult.starved

/-- The branch structure of the StringInput validator, split out so the
selected message code is visible to theorems: none when the length check
passes, otherwise the message code together with its format arguments,
exactly as the source invalidates. -/
def StringInput.error_code (o : StringInputOptions) (raw_str : String) :
    Option (String × List (String × String)) :=
  match in_range raw_str.length o.minimum_length o.maximum_length with
  | none => none
  | some e =>
      if o.minimum_length = o.maximum_length then
        some ("not-equal", [("amount", pyStrOptNat o.minimum_length)])
      else if e = RangeErr.lt then
        some ((if o.minimum_length = some 1 then "empty" else "too-short"),
              [("min", pyStrOptNat o.minimum_length)])
      else
        some ("too-long", [("max", pyStrOptNat o.maximum_length)])

/-- StringInput validate from src/console/inputs.py: the length of the raw
line is checked against the configured inclusive bounds, and the branch
structure above selects the message code. -/
def StringInput.validate (o : StringInputOptions) (raw_str : String) :
    Except ValidationError Unit :=
  match StringInput.error_code o raw_str with
  | none => Except.ok ()
  | some c => Except.error (invalidate o.errors c.1 c.2)

/-- A StringInput invocation: the inherited invoke with the string
validator and the identity sanitizer of BaseInput. -/
def StringInput.invoke (o : StringInputOptions) (inputs : List String) : RunResult String :=
  BaseInput.invoke o.toBaseInputOptions (StringInput.validate o) (fun s => some s) inputs

/-- A Python number as the numeric prompt returns it: a float or an int,
chosen by allow_floats. -/
inductive PyNumber
  | float (q : Rat)
  | int (z : Int)
deriving DecidableEq

/-- NumericInput validate from src/console/inputs.py: the inherited string
length check runs first, then float conversion (failure raises the
not-numeric code), then the wholeness check when floats are not allowed,
then the inclusive range check. The OverflowError branch of the source is
unreachable here because float() applied to the plain decimal literals
floatParse models never raises OverflowError. -/
def NumericInput.validate (o : NumericInputOptions) (raw_str : String) :
    Except ValidationError Unit :=
  match StringInput.validate o.toStringInputOptions raw_str with
  | Except.error e => Except.error e
  | Except.ok _ =>
      match floatParse raw_str with
      | none => Except.error (invalidate o.errors "not-numeric" [])
      | some converted_value =>
          if o.allow_floats = false ∧ fracPart converted_value ≠ 0 then
            Except.error (invalidate o.errors "not-whole" [])
          else
            match in_range converted_value o.minimum o.maximum with
            | some RangeErr.gt =>
                Except.error (invalidate o.errors "too-big" [("max", pyStrOptRat o.maximum)])
            | some RangeErr.lt =>
                Except.error (invalidate o.errors "too-small" [("min", pyStrOptRat o.minimum)])
            | none => Except.ok ()

/-- NumericInput sanitize from src/console/inputs.py: float(raw) when
floats are allowed, otherwise int(raw); none models the conversion
raising, which the surrounding loop does not catch. -/
def NumericInput.sanitize (o : NumericInputOptions) (raw_str : String) : Option PyNumber :=
  if o.allow_floats then (floatParse raw_str).map PyNumber.float
  else (intParse raw_str).map PyNumber.int

/-- A NumericInput invocation: the inherited invoke with the numeric
validator and sanitizer. -/
def NumericInput.invoke (o : NumericInputOptions) (inputs : List String) : RunResult PyNumber :=
  BaseInput.invoke o.toStringInputOptions.toBaseInputOptions
    (NumericInput.validate o) (NumericInput.sanitize o) inputs

/-- ListInput validate from src/console/inputs.py: defer to the configured
item validation function, whose message is raised directly as a
ValidationError without going through the error table. -/
def ListInput.validate (o : ListInputOptions) (raw_str : String) :
    Except ValidationError Unit :=
  match o.validation_function raw_str with
  | some m => Except.error ⟨m⟩
  | none => Except.ok ()

/-- Result of a ListInput invocation: the source returns the accumulated
list together with the terminal code, including on CANCEL. -/
inductive ListRun
  | finished (code : InputResult) (value : List String) (reads : Nat) (errors_shown : List String)
  | crashed
  | starved
deriving DecidableEq

/-- The while loop of ListInput invoke, one scripted line per inner main
loop call, carrying the accumulated list. An accepted item whose lowercase
form is a stop code finalizes with SUCCESS when the minimum count is met
and otherwise shows the not-enough message without appending; any other
accepted item is appended. After either branch the source compares the
count with maximum_amount and finalizes with SUCCESS on equality (the
comparison against an absent maximum is Python int == None, always
false). CONTINUE and ERROR codes from the inner loop both leave the
outer loop running. -/
def ListInput.invoke_loop (o : ListInputOptions) (output_list : List String) :
    List String → ListRun
  | [] => ListRun.starved
  | line :: rest =>
    match BaseInput.main_loop o.toBaseInputOptions (ListInput.validate o)
        (fun s => some s) line with
    | Step.crash => ListRun.crashed
    | Step.cancel => ListRun.finished InputResult.CANCEL output_list 1 []
    | Step.cont msg =>
        match ListInput.invoke_loop o output_list rest with
        | ListRun.finished c v r es => ListRun.finished c v (r + 1) (msg :: es)
        | x => x
    | Step.error =>
        match ListInput.invoke_loop o output_list rest with
        | ListRun.finished c v r es => ListRun.finished c v (r + 1) es
        | x => x
    | Step.success item =>
        if o.stop_codes.contains (pyLower item) then
          if output_list.length < o.minimum_amount then
            if some output_list.length = o.maximum_amount then
              ListRun.finished InputResult.SUCCESS output_list 1
                [dictGet o.errors "not-enough" "Unknown Error"]
            else
              match ListInput.invoke_loop o output_list rest with
              | ListRun.finished c v r es =>
                  ListRun.finished c v (r + 1)
                    (dictGet o.errors "not-enough" "Unknown Error" :: es)
              | x => x
          else
            ListRun.finished InputResult.SUCCESS output_list 1 []
        else
          if some (output_list ++ [item]).length = o.maximum_amount then
            ListRun.finished InputResult.SUCCESS (output_list ++ [item]) 1 []
          else
            match ListInput.invoke_loop o (output_list ++ [item]) rest with
            | ListRun.finished c v r es => ListRun.finished c v (r + 1) es
            | x => x

/-- ListInput invoke from src/console/inputs.py: the overall prompt is
printed once (display only, not modelled), then the loop runs starting
from an empty accumulated list. -/
def ListInput.invoke (o : ListInputOptions) (inputs : List String) : ListRun :=
  ListInput.invoke_loop o [] inputs

/-- generate_numeric_options from SelectionInput: a whole-number prompt
over the inclusive range 1 to the number of choices, whose error table
maps every key of the numeric default table except empty to the
invalid-choice text of the selection defaults, with empty taken from the
selection options (the source indexes errors at the empty key directly,
so it presumes a table that defines it, as every claim does). recurring is
not forwarded, so the generated options default it to true. -/
def SelectionInput.generate_numeric_options (o : SelectionInputOptions)
    (list_length : Nat) : NumericInputOptions :=
  let errors :=
    (NUMERIC_DEFAULT_ERRORS.filter (fun p => p.1 ≠ "empty")).map
      (fun p => (p.1, dictGet SELECTION_DEFAULT_ERRORS "invalid" "Unknown Error"))
    ++ [("empty", dictGet o.errors "empty" "Unknown Error")]
  { allow_floats := false, minimum := some 1, maximum := some (list_length : Rat),
    errors := errors, suffix := o.suffix, cancel_codes := o.cancel_codes }

/-- Python subtraction of 1 from the sanitized selection answer. -/
def PyNumber.subOne : PyNumber → PyNumber
  | PyNumber.int z => PyNumber.int (z - 1)
  | PyNumber.float q => PyNumber.float (q - 1)

/-- SelectionInput invoke from src/console/inputs.py: show the choice list
(display only, not modelled; the list is consulted only for its length),
run the generated numeric prompt over the scripted lines, and shift an
accepted 1-based answer down to a 0-based index; a run without a value
keeps value none. In test mode setup_testing forces the generated numeric
prompt to recurring false. -/
def SelectionInput.invoke (test_mode : Bool) (o : SelectionInputOptions)
    (choices : List String) (inputs : List String) : RunResult PyNumber :=
  let opts0 := SelectionInput.generate_numeric_options o choices.length
  let numeric_options := if test_mode then { opts0 with recurring := false } else opts0
  match NumericInput.invoke numeric_options inputs with
  | RunResult.finished c v r es => RunResult.finished c (v.map PyNumber.subOne) r es
  | x => x

/-- empty from src/console/input.py: whether the line, optionally
stripped of surrounding whitespace, has length zero. -/
def empty (in_str : String) (strip : Bool) : Bool :=
  (if strip then pyStrip in_str else in_str).length == 0

/-- Result of the list_input function of src/console/input.py: the built
list, the number of reads, and the messages printed, in order. -/
inductive SimpleListRun
  | finished (value : List String) (reads : Nat) (printed : List String)
  | starved
deriving DecidableEq

/-- The while loop of list_input from src/console/input.py: a line whose
lowercase form is a stop code ends the loop at once (this function has no
minimum count); a valid line already present while duplicates are
disallowed prints the duplicate message and is not appended; a valid new
line is appended, ending the loop when the count reaches max_amount (with
-1 meaning unbounded); an invalid line prints the invalid message. -/
def list_input_loop (validation_method : String → Bool) (max_amount : Int)
    (stop_codes : List String) (allow_duplicates : Bool)
    (errors : List (String × String)) (output_list : List String) :
    List String → SimpleListRun
  | [] => SimpleListRun.starved
  | line :: rest =>
    if stop_codes.contains (pyLower line) then
      SimpleListRun.finished output_list 1 []
    else if validation_method line then
      if allow_duplicates = false ∧ output_list.contains line then
        match list_input_loop validation_method max_amount stop_codes
            allow_duplicates errors output_list rest with
        | SimpleListRun.finished v r p =>
            SimpleListRun.finished v (r + 1)
              (dictGet errors "duplicate" "Unknown Error" :: p)
        | x => x
      else
        if ((output_list ++ [line]).length : Int) = max_amount then
          SimpleListRun.finished (output_list ++ [line]) 1 []
        else
          match list_input_loop validation_method max_amount stop_codes
              allow_duplicates errors (output_list ++ [line]) rest with
          | SimpleListRun.finished v r p => SimpleListRun.finished v (r + 1) p
          | x => x
    else
      match list_input_loop validation_method max_amount stop_codes
          allow_duplicates errors output_list rest with
      | SimpleListRun.finished v r p =>
          SimpleListRun.finished v (r + 1)
            (dictGet errors "invalid" "Unknown Error" :: p)
      | x => x

/-- list_input from src/console/input.py, starting from an empty list; the
item prompt text is display only and not modelled. -/
def list_input (validation_method : String → Bool) (max_amount : Int)
    (stop_codes : List String) (allow_duplicates : Bool)
    (errors : List (String × String)) (inputs : List String) : SimpleListRun :=
  list_input_loop validation_method max_amount stop_codes allow_duplicates errors [] inputs

/-- Modelled from the spec wording of the string validator (for claim C9):
the message code the spec says is selected, as a function of the length
and the configured bounds. This definition follows the spec text and is
compared against the code computed from the source. -/
def spec_string_error_choice (minimum_length maximum_length : Option Nat)
    (len : Nat) : Option String :=
  let below := (minimum_length.map (fun m => decide (len < m))).getD false
  let above := (maximum_length.map (fun M => decide (M < len))).getD false
  if below || above then
    if minimum_length = maximum_length then some "not-equal"
    else if below then some (if minimum_length = some 1 then "empty" else "too-short")
    else some "too-long"
  else none

/-- NumericInputOptions with floats disallowed and everything else at its
default, the configuration the int entry of the source type table uses. -/
def intInputOptions : NumericInputOptions :=
  { NumericInputOptions.default with allow_floats := false }

/-- StringInputOptions demanding a length of exactly 3. -/
def exactThreeOptions : StringInputOptions :=
  { StringInputOptions.default with minimum_length := some 3, maximum_length := some 3 }

/-- ListInputOptions with a minimum of 2 items, a maximum of 3 items and
the single stop token stop. -/
def listTwoThreeOptions : ListInputOptions :=
  { ListInputOptions.default with minimum_amount := 2, maximum_amount := some 3, stop_codes := ["stop"] }

/-- C1 counterexample: with the default list options, feeding one accepted
item and then a cancel code finalizes with CANCEL, but the accumulated
list holding that item is returned to the caller rather than discarded:
the returned value is the nonempty list, contradicting the claim that no
previously accepted items are returned. -/
theorem C1_counterexample :
    ListInput.invoke ListInputOptions.default ["a", "!"] =
      ListRun.finished InputResult.CANCEL ["a"] 2 [] ∧
    (["a"] : List String) ≠ [] := by
  exact ⟨rfl, by simp⟩

/-- C1 amended: a cancel code entered at any point during accumulation
finalizes the list prompt with outcome CANCEL on that very read, but the
partially accumulated list is returned alongside the CANCEL outcome
rather than discarded. -/
theorem C1_cancel_finalizes_with_list (o : ListInputOptions) (acc : List String)
    (line : String) (rest : List String)
    (hcancel : line ∈ o.cancel_codes) :
    ListInput.invoke_loop o acc (line :: rest) =
      ListRun.finished InputResult.CANCEL acc 1 [] := by
  simp [ListInput.invoke_loop, BaseInput.main_loop, hcancel]

/-- Witness for C1: the amended theorem applied to the default options
with one item already accumulated. -/
theorem C1_cancel_finalizes_with_list_witness :
    ListInput.invoke_loop ListInputOptions.default ["a"] ["!", "b"] =
      ListRun.finished InputResult.CANCEL ["a"] 1 [] :=
  C1_cancel_finalizes_with_list ListInputOptions.default ["a"] "!" ["b"] (by decide)

/-- C2: for every configuration and every validator and sanitizer (hence
every prompt kind built on the shared main loop), a raw line that exactly
matches a configured cancel code makes the iteration finish with CANCEL,
never CONTINUE and never ERROR, because the cancel check runs before any
validation — even when the same line would fail the kind-specific
validation. -/
theorem C2_cancel_precedence {α : Type} (o : BaseInputOptions)
    (validate : String → Except ValidationError Unit)
    (sanitize : String → Option α) (raw : String)
    (hcancel : raw ∈ o.cancel_codes) :
    BaseInput.main_loop o validate sanitize raw = Step.cancel := by
  simp [BaseInput.main_loop, hcancel]

/-- Witness for C2: string options demanding at least 5 characters, where
the cancel code would fail validation as too short, yet the iteration
cancels. -/
theorem C2_cancel_precedence_witness :
    StringInput.validate { StringInputOptions.default with minimum_length := some 5 } "!" =
      Except.error ⟨"Must be at least 5 characters"⟩ ∧
    BaseInput.main_loop
      { StringInputOptions.default with minimum_length := some 5 }.toBaseInputOptions
      (StringInput.validate { StringInputOptions.default with minimum_length := some 5 })
      (fun s => some s) "!" = Step.cancel :=
  ⟨by rfl, C2_cancel_precedence _ _ _ "!" (by decide)⟩

/-- C3: for every configuration of the core loop with recurring false, an
invocation fed a single line that is not a cancel code and fails the
kind-specific validation terminates with outcome ERROR and value none,
after exactly one prompt/read cycle, and writes no error message. -/
theorem C3_nonrecurring_error {α : Type} (o : BaseInputOptions)
    (validate : String → Except ValidationError Unit)
    (sanitize : String → Option α) (line : String) (e : ValidationError)
    (hrec : o.recurring = false)
    (hcancel : line ∉ o.cancel_codes)
    (hval : validate line = Except.error e) :
    BaseInput.invoke o validate sanitize [line] =
      RunResult.finished InputResult.ERROR none 1 [] := by
  simp [BaseInput.invoke, BaseInput.main_loop, hrec, hcancel, hval]

/-- Witness for C3: the non-recurring string prompt fed one empty line
(invalid because the default minimum length is 1). -/
theorem C3_nonrecurring_error_witness :
    BaseInput.invoke
      { StringInputOptions.default with recurring := false }.toBaseInputOptions
      (StringInput.validate { StringInputOptions.default with recurring := false })
      (fun s => some s) [""] =
      RunResult.finished InputResult.ERROR none 1 [] :=
  C3_nonrecurring_error _ _ _ "" ⟨"Value cannot be empty"⟩ (by rfl) (by decide) (by rfl)

/-- C4: for every configuration of the core loop with recurring true, an
invocation fed one invalid line (not a cancel code) and then one valid
line (not a cancel code, passing both validations and sanitizing to a
value) terminates with SUCCESS carrying the sanitized value, performs
exactly two read cycles, and writes exactly one error message, namely the
resolved message of the first failure. -/
theorem C4_recurring_retry_success {α : Type} (o : BaseInputOptions)
    (validate : String → Except ValidationError Unit)
    (sanitize : String → Option α) (l1 l2 : String) (e : ValidationError) (v : α)
    (hrec : o.recurring = true)
    (h1cancel : l1 ∉ o.cancel_codes)
    (h1val : validate l1 = Except.error e)
    (h2cancel : l2 ∉ o.cancel_codes)
    (h2val : validate l2 = Except.ok ())
    (h2add : o.additional_validation l2 = none)
    (h2san : sanitize l2 = some v) :
    BaseInput.invoke o validate sanitize [l1, l2] =
      RunResult.finished InputResult.SUCCESS (some v) 2 [e.message] := by
  simp [BaseInput.invoke, BaseInput.main_loop, hrec, h1cancel, h1val, h2cancel,
    h2val, h2add, h2san]

/-- Witness for C4: the whole-number prompt fed the invalid line 2.5 and
then the valid line 2, succeeding with the integer 2 after one not-whole
error message. -/
theorem C4_recurring_retry_success_witness :
    BaseInput.invoke intInputOptions.toStringInputOptions.toBaseInputOptions
      (NumericInput.validate intInputOptions) (NumericInput.sanitize intInputOptions)
      ["2.5", "2"] =
      RunResult.finished InputResult.SUCCESS (some (PyNumber.int 2)) 2
        ["Must be a whole number"] :=
  C4_recurring_retry_success _ _ _ "2.5" "2" ⟨"Must be a whole number"⟩ (PyNumber.int 2)
    (by rfl) (by decide) (by rfl) (by decide) (by rfl) (by rfl) (by rfl)

/-- C5: the selection adapter over the three choices accepts the answer 2
and returns the zero-based index 1 with SUCCESS; the out-of-range answers
5 and 0 are rejected with the single remapped invalid-choice message (and
the prompt, recurring by default, reads again); in test mode, where
recurring is forced off, the rejected answer 5 ends with ERROR and no
index. -/
theorem C5_selection_adapter :
    SelectionInput.invoke false SelectionInputOptions.default
      ["red", "green", "blue"] ["2"] =
      RunResult.finished InputResult.SUCCESS (some (PyNumber.int 1)) 1 [] ∧
    SelectionInput.invoke false SelectionInputOptions.default
      ["red", "green", "blue"] ["5", "2"] =
      RunResult.finished InputResult.SUCCESS (some (PyNumber.int 1)) 2 ["Invalid choice"] ∧
    SelectionInput.invoke false SelectionInputOptions.default
      ["red", "green", "blue"] ["0", "2"] =
      RunResult.finished InputResult.SUCCESS (some (PyNumber.int 1)) 2 ["Invalid choice"] ∧
    SelectionInput.invoke true SelectionInputOptions.default
      ["red", "green", "blue"] ["5"] =
      RunResult.finished InputResult.ERROR none 1 [] :=
  ⟨rfl, rfl, rfl, rfl⟩

/-- C6: with floats disallowed the numeric prompt rejects 2.5 with the
not-whole message and accepts 2, succeeding with the Python integer 2;
with floats allowed it accepts 2.5, succeeding with the Python float 5/2;
and the recurring whole-number prompt fed 2.5 then 2 retries once,
writing exactly the not-whole message. -/
theorem C6_numeric_sanitization :
    NumericInput.validate intInputOptions "2.5" =
      Except.error ⟨"Must be a whole number"⟩ ∧
    NumericInput.invoke intInputOptions ["2"] =
      RunResult.finished InputResult.SUCCESS (some (PyNumber.int 2)) 1 [] ∧
    NumericInput.invoke NumericInputOptions.default ["2.5"] =
      RunResult.finished InputResult.SUCCESS (some (PyNumber.float (mkRat 5 2))) 1 [] ∧
    NumericInput.invoke intInputOptions ["2.5", "2"] =
      RunResult.finished InputResult.SUCCESS (some (PyNumber.int 2)) 2
        ["Must be a whole number"] :=
  ⟨rfl, rfl, rfl, rfl⟩

/-- C7: with minimum 2, maximum 3 and stop token stop, feeding a then stop
rejects the stop token with the not-enough message and keeps prompting,
and b then stop finalizes with SUCCESS and the list of the two items after
four reads; feeding three items finalizes with SUCCESS immediately on the
third append, after three reads and without a stop token. -/
theorem C7_list_accumulator_stop_and_max :
    ListInput.invoke listTwoThreeOptions ["a", "stop", "b", "stop"] =
      ListRun.finished InputResult.SUCCESS ["a", "b"] 4 ["Not enough items"] ∧
    ListInput.invoke listTwoThreeOptions ["a", "b", "c"] =
      ListRun.finished InputResult.SUCCESS ["a", "b", "c"] 3 [] :=
  ⟨rfl, rfl⟩

/-- C8: in list_input with duplicates disallowed, an accepted line already
present in the accumulated list is not appended and the duplicate message
is printed, the loop continuing unchanged; in particular feeding x, then x
again, then a stop token returns the list holding x exactly once with the
duplicate message printed on the second attempt. -/
theorem C8_duplicate_rejection :
    (∀ (vm : String → Bool) (ma : Int) (sc : List String)
        (errs : List (String × String)) (acc : List String) (line : String)
        (rest : List String) (v : List String) (r : Nat) (p : List String),
        pyLower line ∉ sc → vm line = true →
        line ∈ acc →
        list_input_loop vm ma sc false errs acc rest = SimpleListRun.finished v r p →
        list_input_loop vm ma sc false errs acc (line :: rest) =
          SimpleListRun.finished v (r + 1)
            (dictGet errs "duplicate" "Unknown Error" :: p)) ∧
    list_input (fun x => ! empty x true) (-1) ["stop", "exit"] false
      LIST_INPUT_ERROR_MESSAGES ["x", "x", "stop"] =
      SimpleListRun.finished ["x"] 3 ["Value already entered"] := by
  constructor
  · intro vm ma sc errs acc line rest v r p hsc hvm hdup hrest
    simp [list_input_loop, hsc, hvm, hdup, hrest]
  · rfl

/-- Witness for C8: the duplicate step theorem applied to the default
arguments of list_input with x already accumulated and the script x then
stop. -/
theorem C8_duplicate_rejection_witness :
    list_input_loop (fun x => ! empty x true) (-1) ["stop", "exit"] false
      LIST_INPUT_ERROR_MESSAGES ["x"] ["x", "stop"] =
      SimpleListRun.finished ["x"] 2 ["Value already entered"] :=
  C8_duplicate_rejection.1 (fun x => ! empty x true) (-1) ["stop", "exit"]
    LIST_INPUT_ERROR_MESSAGES ["x"] "x" ["stop"] ["x"] 1 []
    (by decide) (by rfl) (by decide) (by rfl)

/-- C9: the string prompt accepts a raw line exactly when the message
choice the spec describes is empty, and the message code the source
selects coincides with that choice for every configuration and line
(wrong-exact-length when the bounds coincide, empty below a minimum of 1,
too-short below a larger minimum, too-long above the maximum); in
particular minimum 3 = maximum 3 rejects the two boundary strings with
the exact-length message and accepts the string of length 3. -/
theorem C9_string_length_validation :
    (∀ (o : StringInputOptions) (s : String),
        (StringInput.error_code o s).map Prod.fst =
          spec_string_error_choice o.minimum_length o.maximum_length s.length ∧
        (StringInput.validate o s = Except.ok () ↔
          spec_string_error_choice o.minimum_length o.maximum_length s.length = none)) ∧
    StringInput.validate exactThreeOptions "ab" =
      Except.error ⟨"Must have 3 characters"⟩ ∧
    StringInput.validate exactThreeOptions "abcd" =
      Except.error ⟨"Must have 3 characters"⟩ ∧
    StringInput.validate exactThreeOptions "abc" = Except.ok () := by
  refine ⟨?_, rfl, rfl, rfl⟩
  intro o s
  unfold StringInput.validate StringInput.error_code spec_string_error_choice in_range
  cases hm : (o.minimum_length.map (fun m => decide (s.length < m))).getD false <;>
  cases hM : (o.maximum_length.map (fun M => decide (M < s.length))).getD false <;>
  simp [hm, hM] <;>
  by_cases hmm : o.minimum_length = o.maximum_length <;>
  simp [hmm]

/-- C10: the code bug behind the safety claim — with floats disallowed the
numeric validator accepts the line 2.0 (numeric, whole, in range), but the
sanitizer int() raises an uncaught ValueError on it, so the prompt loop
crashes instead of reaching a terminal outcome. -/
theorem C10_whole_float_sanitize_crash :
    NumericInput.validate intInputOptions "2.0" = Except.ok () ∧
    NumericInput.sanitize intInputOptions "2.0" = none ∧
    NumericInput.invoke intInputOptions ["2.0"] = RunResult.crashed :=
  ⟨rfl, rfl, rfl⟩

end Compendium
